import Mathlib

/-!
Verification development for the Customer-Churn-Prediction cleaning pipeline.

The definitions below are a shallow embedding of `src/cleaning/cleaning.py`
(class `DataCleaner`) and `src/schema.py` (pandera schemas).  A pandas
DataFrame is modelled as a list of column descriptors (name and dtype)
together with a list of rows, each row a list of cells.  A cell is either an
explicit missing value (`NaN` / `pd.NaT` / `pd.NA`), a string, a number
(rational, covering both int64 and float64 payloads), or a parsed datetime.
The cleaner holds a name-keyed collection of dataframes plus the textual
audit log, exactly as `self.dfs` / `self.cleaning_log` do in the source.

Operations that the source lets raise (`KeyError` for an unknown dataset or
column) are embedded as `Except String`; `validate_df`, whose body catches
every exception, is embedded as a total function returning the updated
cleaner and a boolean.
-/

namespace Churn

/-- A parsed timestamp, as produced by `pd.to_datetime`. -/
structure DateTime where
  year : Nat
  month : Nat
  day : Nat
  hour : Nat
  minute : Nat
  second : Nat
deriving DecidableEq, Repr

/-- One cell of a dataframe: explicit missing, string, numeric or datetime. -/
inductive Cell where
  | na : Cell
  | str (s : String) : Cell
  | num (q : Rat) : Cell
  | date (d : DateTime) : Cell
deriving DecidableEq, Repr

/-- Pandas column dtypes, as far as the cleaning pipeline observes them:
object/string, (nullable) integer, float, datetime. -/
inductive DType where
  | obj : DType
  | numI : DType
  | numF : DType
  | dt : DType
deriving DecidableEq, Repr

/-- Numeric dtypes are what `select_dtypes(include=number)` selects. -/
def DType.isNumeric : DType → Bool
  | .numI => true
  | .numF => true
  | _ => false

/-- A dataframe: named, typed columns and a list of rows. -/
structure DataFrame where
  cols : List (String × DType)
  rows : List (List Cell)
deriving DecidableEq, Repr

def DataFrame.colNames (df : DataFrame) : List String :=
  df.cols.map Prod.fst

/-- Position of the first column with the given name. -/
def colIdxAux (name : String) : List (String × DType) → Option Nat
  | [] => Option.none
  | p :: t =>
    if p.1 == name then Option.some 0
    else (colIdxAux name t).map (fun i => i + 1)

/-- Position of a named column, `Option.none` when the column is absent. -/
def DataFrame.colIdx (df : DataFrame) (name : String) : Option Nat :=
  colIdxAux name df.cols

/-- The cells of the column at position `i`, read off row by row. -/
def DataFrame.colCells (df : DataFrame) (i : Nat) : List Cell :=
  df.rows.map (fun r => r.getD i Cell.na)

/-! ### Date parsing

`DataCleaner.convert_date` calls
`pd.to_datetime(column, format="mixed", errors="coerce")`.  With
`format="mixed"` pandas parses each element individually: an ISO form
(`YYYY-MM-DD`, optionally with a time) is read directly, anything else goes
through the dateutil parser with the default `dayfirst=False`, so in a
slashed date `a/b/YYYY` the first field is taken as the month whenever it is
a possible month, and the two fields are swapped only when the first cannot
be a month; a value that parses under neither reading, or whose calendar
date is invalid, becomes `NaT` (`errors="coerce"`).  The functions below
embed that per-element behaviour for the input shapes the pipeline meets. -/

/-- Split a character list on a separator character. -/
def splitCh (sep : Char) : List Char → List (List Char)
  | [] => [[]]
  | c :: cs =>
    let r := splitCh sep cs
    if c = sep then [] :: r
    else
      match r with
      | [] => [[c]]
      | h :: t => (c :: h) :: t

/-- Numeric value of a non-empty all-digit character list. -/
def digitsVal (l : List Char) : Option Nat :=
  if l.isEmpty then Option.none
  else if l.all Char.isDigit then
    Option.some (l.foldl (fun a c => a * 10 + (c.toNat - 48)) 0)
  else Option.none

def isLeap (y : Nat) : Bool :=
  (y % 4 == 0 && y % 100 != 0) || y % 400 == 0

def daysInMonth (y m : Nat) : Nat :=
  if [1, 3, 5, 7, 8, 10, 12].contains m then 31
  else if [4, 6, 9, 11].contains m then 30
  else if m == 2 then (if isLeap y then 29 else 28)
  else 0

def validYMD (y m d : Nat) : Bool :=
  1 ≤ m && m ≤ 12 && 1 ≤ d && d ≤ daysInMonth y m

/-- Parse the date part: ISO `YYYY-MM-DD`, else slashed `a/b/YYYY` with the
month-first preference of dateutil under `dayfirst=False`. -/
def parseDatePart (l : List Char) : Option (Nat × Nat × Nat) :=
  match splitCh '-' l with
  | [ys, ms, ds] =>
    match digitsVal ys, digitsVal ms, digitsVal ds with
    | Option.some y, Option.some m, Option.some d =>
      if ys.length == 4 && validYMD y m d then Option.some (y, m, d)
      else Option.none
    | _, _, _ => Option.none
  | _ =>
    match splitCh '/' l with
    | [as, bs, ys] =>
      match digitsVal as, digitsVal bs, digitsVal ys with
      | Option.some a, Option.some b, Option.some y =>
        if ys.length == 4 then
          if 1 ≤ a && a ≤ 12 && validYMD y a b then Option.some (y, a, b)
          else if validYMD y b a then Option.some (y, b, a)
          else Option.none
        else Option.none
      | _, _, _ => Option.none
    | _ => Option.none

/-- Parse the time part: `HH:MM` or `HH:MM:SS`. -/
def parseTimePart (l : List Char) : Option (Nat × Nat × Nat) :=
  match splitCh ':' l with
  | [hs, ms] =>
    match digitsVal hs, digitsVal ms with
    | Option.some h, Option.some m =>
      if h ≤ 23 && m ≤ 59 then Option.some (h, m, 0) else Option.none
    | _, _ => Option.none
  | [hs, ms, ss] =>
    match digitsVal hs, digitsVal ms, digitsVal ss with
    | Option.some h, Option.some m, Option.some s =>
      if h ≤ 23 && m ≤ 59 && s ≤ 59 then Option.some (h, m, s)
      else Option.none
    | _, _, _ => Option.none
  | _ => Option.none

/-- Per-element behaviour of `pd.to_datetime(·, format="mixed",
errors="coerce")` on the string shapes relevant to this repository. -/
def toDatetimeMixed (s : String) : Option DateTime :=
  match splitCh ' ' s.data with
  | [d] =>
    (parseDatePart d).map (fun x => ⟨x.1, x.2.1, x.2.2, 0, 0, 0⟩)
  | [d, t] =>
    match parseDatePart d, parseTimePart t with
    | Option.some x, Option.some u =>
      Option.some ⟨x.1, x.2.1, x.2.2, u.1, u.2.1, u.2.2⟩
    | _, _ => Option.none
  | _ => Option.none

/-- Effect of the coercing datetime conversion on a single cell: strings are
parsed (unparseable ones become `NaT`, i.e. missing); missing stays missing;
already-parsed datetimes are kept; any other payload is coerced to missing. -/
def convertDateCell (c : Cell) : Cell :=
  match c with
  | .str s =>
    match toDatetimeMixed s with
    | Option.some d => .date d
    | Option.none => .na
  | .date d => .date d
  | _ => .na

/-! ### The cleaning engine -/

/-- The `DataCleaner` state: `self.dfs` and `self.cleaning_log`. -/
structure Cleaner where
  dfs : List (String × DataFrame)
  cleaning_log : List String
deriving DecidableEq, Repr

/-- `self.dfs[df_name]` lookup (first binding wins, as in a dict). -/
def lookupDf (c : Cleaner) (name : String) : Option DataFrame :=
  (c.dfs.find? (fun p => p.1 == name)).map Prod.snd

/-- `self.dfs[df_name] = df` assignment on an existing key. -/
def setDf (c : Cleaner) (name : String) (df : DataFrame) : Cleaner :=
  { c with dfs := c.dfs.map (fun p => if p.1 == name then (p.1, df) else p) }

/-- `self.cleaning_log.append(m)`. -/
def withLog (c : Cleaner) (m : String) : Cleaner :=
  { c with cleaning_log := c.cleaning_log ++ [m] }

def notFoundMsg (name : String) : String :=
  s!"DataFrame {name} not found"

def colNotFoundMsg (column name : String) : String :=
  s!"Column {column} not found in {name}"

def dropDupMsg (n : Nat) (name : String) : String :=
  s!"Removed {n} duplicates from {name}"

def convertDateMsg (column name : String) : String :=
  s!"Converted {column} to datetime in {name}"

def filterMsg (n : Nat) (column name : String) : String :=
  s!"Filtered {n} invalid values from {column} in {name}"

def convertIntMsg (column name : String) : String :=
  s!"Converted {column} to integer in {name}"

def removeRowsMsg (n : Nat) (name cond : String) : String :=
  s!"Removed {n} rows from {name} where {cond}"

def removeNegMsg (n : Nat) (name : String) : String :=
  s!"Removed {n} rows with negative values from {name}"

def validationPassMsg (name : String) : String :=
  s!"Validation passed for {name}"

def validationFailMsg (name : String) : String :=
  s!"Validation failed for {name}"

/-- The keep policy of `drop_duplicates`: `first`, `last`, or `False`. -/
inductive Keep where
  | first : Keep
  | last : Keep
  | no : Keep
deriving DecidableEq, Repr

/-- Key of a row on the subset columns (missing positions read as `NA`;
pandas treats equal `NaN`s in the subset as duplicates of each other). -/
def projRow (idxs : List Nat) (r : List Cell) : List Cell :=
  idxs.map (fun i => r.getD i Cell.na)

/-- Keep-first deduplication: drop a row whose key was already seen. -/
def dedupFirstAux (key : List Cell → List Cell) (seen : List (List Cell)) :
    List (List Cell) → List (List Cell)
  | [] => []
  | r :: rs =>
    if key r ∈ seen then dedupFirstAux key seen rs
    else r :: dedupFirstAux key (key r :: seen) rs

/-- `DataFrame.drop_duplicates(subset=..., keep=...)` on the row list. -/
def dedupRows (key : List Cell → List Cell) (keep : Keep)
    (rows : List (List Cell)) : List (List Cell) :=
  match keep with
  | .first => dedupFirstAux key [] rows
  | .last => (dedupFirstAux key [] rows.reverse).reverse
  | .no => rows.filter (fun r => rows.countP (fun r2 => decide (key r2 = key r)) == 1)

/-- Positions of the subset columns; `Option.none` when one is absent (pandas
raises `KeyError` for an unknown subset column). -/
def subsetIdxs (df : DataFrame) (subset : List String) : Option (List Nat) :=
  subset.mapM (fun n => df.colIdx n)

/-- `DataCleaner.drop_duplicates`. -/
def drop_duplicates (c : Cleaner) (df_name : String) (subset : List String)
    (keep : Keep) : Except String Cleaner :=
  match lookupDf c df_name with
  | Option.none => .error (notFoundMsg df_name)
  | Option.some df =>
    match subsetIdxs df subset with
    | Option.none => .error (colNotFoundMsg "subset" df_name)
    | Option.some idxs =>
      let rows2 := dedupRows (projRow idxs) keep df.rows
      let removed := df.rows.length - rows2.length
      .ok (withLog (setDf c df_name { df with rows := rows2 })
            (dropDupMsg removed df_name))

/-- `DataCleaner.convert_date`. -/
def convert_date (c : Cleaner) (df_name column : String) :
    Except String Cleaner :=
  match lookupDf c df_name with
  | Option.none => .error (notFoundMsg df_name)
  | Option.some df =>
    match df.colIdx column with
    | Option.none => .error (colNotFoundMsg column df_name)
    | Option.some i =>
      let df2 : DataFrame :=
        { cols := df.cols.set i (column, DType.dt),
          rows := df.rows.map (fun r => r.set i (convertDateCell (r.getD i Cell.na))) }
      .ok (withLog (setDf c df_name df2) (convertDateMsg column df_name))

/-- `Series.isin(allowed)` on one cell: missing is never in the list, and a
non-string payload never equals one of the allowed strings. -/
def isinCell (c : Cell) (allowed : List String) : Bool :=
  match c with
  | .str s => allowed.contains s
  | _ => false

/-- One loop iteration of `filter_categorical` on a present column: null the
out-of-whitelist cells of column `i` and count the cells `~mask` covered. -/
def filterCatCol (df : DataFrame) (i : Nat) (allowed : List String) :
    DataFrame × Nat :=
  ({ df with
      rows := df.rows.map (fun r =>
        if isinCell (r.getD i Cell.na) allowed then r else r.set i Cell.na) },
   df.rows.countP (fun r => !(isinCell (r.getD i Cell.na) allowed)))

/-- The loop body of `filter_categorical`: an absent column is skipped (only
a warning is emitted, which does not reach `cleaning_log`). -/
def filterCatStep (df_name : String) (acc : DataFrame × List String)
    (p : String × List String) : DataFrame × List String :=
  match acc.1.colIdx p.1 with
  | Option.none => acc
  | Option.some i =>
    let r := filterCatCol acc.1 i p.2
    (r.1, acc.2 ++ [filterMsg r.2 p.1 df_name])

/-- `DataCleaner.filter_categorical`. -/
def filter_categorical (c : Cleaner) (df_name : String)
    (pairs : List (String × List String)) : Except String Cleaner :=
  match lookupDf c df_name with
  | Option.none => .error (notFoundMsg df_name)
  | Option.some df =>
    let r := pairs.foldl (filterCatStep df_name) (df, [])
    .ok { c with
          dfs := (setDf c df_name r.1).dfs,
          cleaning_log := c.cleaning_log ++ r.2 }

/-- `Series.fillna(v)` on one cell. -/
def fillnaCell (fill : Option Int) (c : Cell) : Cell :=
  match fill, c with
  | Option.some v, .na => .num v
  | _, _ => c

/-- Whether `convert_dtypes` turns the column into a nullable integer: it
does exactly when every non-missing value is an integral number; otherwise
the values (in particular non-integral floats and strings) are kept as they
are, and a missing value is never filled. -/
def intLikeCells (cells : List Cell) : Bool :=
  cells.all (fun c =>
    match c with
    | .na => true
    | .num q => q.den == 1
    | _ => false)

/-- `DataCleaner.convert_to_int`.  The source checks the dataset name; an
absent column raises `KeyError` out of the pandas indexing itself. -/
def convert_to_int (c : Cleaner) (df_name column : String)
    (fill_na : Option Int) : Except String Cleaner :=
  match lookupDf c df_name with
  | Option.none => .error (notFoundMsg df_name)
  | Option.some df =>
    match df.colIdx column with
    | Option.none => .error (colNotFoundMsg column df_name)
    | Option.some i =>
      let filled := (df.colCells i).map (fillnaCell fill_na)
      let newDt :=
        if intLikeCells filled then DType.numI
        else (df.cols.getD i ("", DType.obj)).2
      let df2 : DataFrame :=
        { cols := df.cols.set i (column, newDt),
          rows := df.rows.map (fun r =>
            r.set i (fillnaCell fill_na (r.getD i Cell.na))) }
      .ok (withLog (setDf c df_name df2) (convertIntMsg column df_name))

/-- `DataCleaner.remove_rows`.  The `df.query("not (...)")` condition string
is embedded as a boolean predicate over rows, with a label for the log. -/
def remove_rows (c : Cleaner) (df_name : String)
    (cond : List Cell → Bool) (condLabel : String) : Except String Cleaner :=
  match lookupDf c df_name with
  | Option.none => .error (notFoundMsg df_name)
  | Option.some df =>
    let rows2 := df.rows.filter (fun r => !(cond r))
    let removed := df.rows.length - rows2.length
    .ok (withLog (setDf c df_name { df with rows := rows2 })
          (removeRowsMsg removed df_name condLabel))

/-- Positions of the numeric columns outside the exclusion list, i.e.
`select_dtypes(include=number).columns.difference(exclude)`.  (The pandas
`difference` may reorder the columns; the sequential conjunctive filters
below commute, so the resulting row set does not depend on that order.) -/
def numericIdxs (df : DataFrame) (exclude : List String) : List Nat :=
  (List.range df.cols.length).filter (fun i =>
    (df.cols.getD i ("", DType.obj)).2.isNumeric
      && !(exclude.contains (df.cols.getD i ("", DType.obj)).1))

/-- The row-keeping test `df[col] >= 0` of one filtering pass: a missing
value compares as not-`>= 0` and the row is dropped. -/
def keepNonneg (i : Nat) (r : List Cell) : Bool :=
  match r.getD i Cell.na with
  | .num q => decide (0 ≤ q)
  | _ => false

/-- `DataCleaner.remove_negatives`. -/
def remove_negatives (c : Cleaner) (df_name : String)
    (exclude : List String) : Except String Cleaner :=
  match lookupDf c df_name with
  | Option.none => .error (notFoundMsg df_name)
  | Option.some df =>
    let rows2 := (numericIdxs df exclude).foldl
      (fun rs i => rs.filter (keepNonneg i)) df.rows
    let removed := df.rows.length - rows2.length
    .ok (withLog (setDf c df_name { df with rows := rows2 })
          (removeNegMsg removed df_name))

/-! ### Schemas and validation

Embedding of the pandera `DataFrameSchema` declarations in `src/schema.py`
and of `DataCleaner.validate_df`.  A schema lists per-column descriptors
(semantic type, nullability, uniqueness, value check) and a strictness flag;
`schemaValidate` is the boolean outcome of `schema.validate(df)` (pandera
raises `SchemaError` exactly when it is `false`): under `strict` no dataframe
column may be undeclared, every declared column must be present, its dtype
must match, a non-nullable column may hold no missing value, a unique column
no duplicate, and every non-missing value must satisfy the column check. -/

inductive CType where
  | tStr : CType
  | tInt : CType
  | tFloat : CType
  | tDateTime : CType
deriving DecidableEq, Repr

inductive CCheck where
  | noCheck : CCheck
  | ge0 : CCheck
  | isinList (allowed : List String) : CCheck
deriving DecidableEq, Repr

structure ColSchema where
  cname : String
  ctype : CType
  nullable : Bool
  unique : Bool
  check : CCheck
deriving DecidableEq, Repr

structure Schema where
  columns : List ColSchema
  strict : Bool
deriving DecidableEq, Repr

def dtypeOk : CType → DType → Bool
  | .tStr, .obj => true
  | .tInt, .numI => true
  | .tFloat, .numF => true
  | .tDateTime, .dt => true
  | _, _ => false

def cellCheck : CCheck → Cell → Bool
  | .noCheck, _ => true
  | .ge0, .num q => decide (0 ≤ q)
  | .ge0, _ => false
  | .isinList allowed, c => isinCell c allowed

def colCellsOk (cs : ColSchema) (cells : List Cell) : Bool :=
  (cs.nullable || cells.all (fun c => c != Cell.na))
    && (!cs.unique || decide cells.Nodup)
    && cells.all (fun c => c == Cell.na || cellCheck cs.check c)

def schemaValidate (sch : Schema) (df : DataFrame) : Bool :=
  (!sch.strict || df.cols.all (fun p => sch.columns.any (fun cs => cs.cname == p.1)))
    && sch.columns.all (fun cs =>
        match df.colIdx cs.cname with
        | Option.none => false
        | Option.some i =>
          dtypeOk cs.ctype (df.cols.getD i ("", DType.obj)).2
            && colCellsOk cs (df.colCells i))

/-- `DataCleaner.validate_df`: the whole body runs under `try/except`, so a
failed lookup and a failed validation alike are caught, logged and reported
as `false`; nothing is raised and no dataframe is changed.  (The source
appends the exception text after the fixed prefix; the embedding keeps the
fixed part of the message.) -/
def validate_df (c : Cleaner) (df_name : String) (sch : Schema) :
    Cleaner × Bool :=
  match lookupDf c df_name with
  | Option.none => (withLog c (validationFailMsg df_name), false)
  | Option.some df =>
    if schemaValidate sch df then (withLog c (validationPassMsg df_name), true)
    else (withLog c (validationFailMsg df_name), false)

/-! The named whitelists and the three schema declarations of
`src/schema.py`. -/

def ALLOWED_COUNTRIES : List String := ["DE", "FR", "ES", "IT", "NL"]
def ALLOWED_GENDERS : List String := ["M", "F", "X"]
def ALLOWED_PLANS : List String := ["basic", "premium", "gold"]
def ALLOWED_CHANNELS : List String := ["email", "phone", "chat", "whatsapp"]
def ALLOWED_ISSUE_TYPES : List String := ["billing", "technical", "general"]

def customers_schema : Schema :=
  { columns :=
      [⟨"customer_id", .tStr, false, true, .noCheck⟩,
       ⟨"signup_date", .tDateTime, false, false, .noCheck⟩,
       ⟨"country", .tStr, true, false, .isinList ALLOWED_COUNTRIES⟩,
       ⟨"age", .tInt, true, false, .ge0⟩,
       ⟨"gender", .tStr, true, false, .isinList ALLOWED_GENDERS⟩,
       ⟨"plan_type", .tStr, true, false, .isinList ALLOWED_PLANS⟩,
       ⟨"monthly_fee", .tFloat, false, false, .ge0⟩],
    strict := true }

def transactions_schema : Schema :=
  { columns :=
      [⟨"customer_id", .tStr, false, false, .noCheck⟩,
       ⟨"date", .tDateTime, false, false, .noCheck⟩,
       ⟨"call_minutes", .tFloat, true, false, .ge0⟩,
       ⟨"data_usage_gb", .tFloat, true, false, .ge0⟩,
       ⟨"sms_count", .tInt, true, false, .ge0⟩,
       ⟨"amount_paid", .tFloat, true, false, .ge0⟩],
    strict := true }

def support_schema : Schema :=
  { columns :=
      [⟨"ticket_id", .tStr, false, true, .noCheck⟩,
       ⟨"customer_id", .tStr, true, false, .noCheck⟩,
       ⟨"timestamp", .tDateTime, false, false, .noCheck⟩,
       ⟨"channel", .tStr, true, false, .isinList ALLOWED_CHANNELS⟩,
       ⟨"issue_type", .tStr, true, false, .isinList ALLOWED_ISSUE_TYPES⟩,
       ⟨"resolution_time_min", .tInt, true, false, .ge0⟩,
       ⟨"was_resolved", .tInt, true, false, .noCheck⟩],
    strict := true }

/-! ### Basic lemmas about the embedding -/

theorem getD_set_self {l : List Cell} {i : Nat} {v : Cell}
    (h : i < l.length) : (l.set i v).getD i Cell.na = v := by
  induction l generalizing i with
  | nil => simp at h
  | cons a t ih =>
    cases i with
    | zero => rfl
    | succ j => simpa using ih (by simpa using h)

theorem getD_set_self_na (l : List Cell) (i : Nat) :
    (l.set i Cell.na).getD i Cell.na = Cell.na := by
  induction l generalizing i with
  | nil => simp [List.getD]
  | cons a t ih =>
    cases i with
    | zero => rfl
    | succ j => simpa using ih j

theorem getD_set_ne (l : List Cell) {i j : Nat} (v : Cell) (h : i ≠ j) :
    (l.set i v).getD j Cell.na = l.getD j Cell.na := by
  induction l generalizing i j with
  | nil => simp
  | cons a t ih =>
    cases i with
    | zero =>
      cases j with
      | zero => exact absurd rfl h
      | succ j' => rfl
    | succ i' =>
      cases j with
      | zero => rfl
      | succ j' => simpa using @ih i' j' (fun hh => h (by rw [hh]))

theorem colIdxAux_some {n : String} : ∀ {cols : List (String × DType)} {i : Nat},
    colIdxAux n cols = Option.some i →
    i < cols.length ∧ (cols.getD i ("", DType.obj)).1 = n := by
  intro cols
  induction cols with
  | nil => intro i h; simp [colIdxAux] at h
  | cons a t ih =>
    intro i h
    rw [colIdxAux] at h
    by_cases ha : a.1 == n
    · rw [if_pos ha] at h
      cases h
      exact ⟨Nat.succ_le_succ (Nat.zero_le _), by simpa using ha⟩
    · rw [if_neg ha, Option.map_eq_some'] at h
      obtain ⟨j, hj, rfl⟩ := h
      have := ih hj
      exact ⟨Nat.succ_lt_succ this.1, by simpa using this.2⟩

theorem colIdx_some {cols : List (String × DType)} {rows : List (List Cell)}
    {n : String} {i : Nat}
    (h : DataFrame.colIdx ⟨cols, rows⟩ n = Option.some i) :
    i < cols.length ∧ (cols.getD i ("", DType.obj)).1 = n :=
  colIdxAux_some h

theorem find_map_set {name : String} {df : DataFrame} (d : DataFrame) :
    ∀ {l : List (String × DataFrame)},
    (l.find? (fun p => p.1 == name)).map Prod.snd = Option.some df →
    ((l.map (fun p => if p.1 == name then (p.1, d) else p)).find?
        (fun p => p.1 == name)).map Prod.snd = Option.some d := by
  intro l
  induction l with
  | nil => intro h; simp [List.find?] at h
  | cons a t ih =>
    intro h
    by_cases ha : (a.1 == name) = true
    · simp [List.find?, ha]
    · have hfa : (a.1 == name) = false := Bool.eq_false_iff.mpr (by simpa using ha)
      rw [List.find?_cons_of_neg _ (by simp [hfa])] at h
      have := ih h
      simp only [List.map]
      rw [if_neg (by simp [hfa]), List.find?_cons_of_neg _ (by simp [hfa])]
      exact this

/-- A dataframe lookup that succeeded still finds the updated frame after
the in-place assignment `self.dfs[name] = df`. -/
theorem lookupDf_setDf {c : Cleaner} {name : String} {df d : DataFrame}
    (h : lookupDf c name = Option.some df) :
    lookupDf (setDf c name d) name = Option.some d := by
  unfold lookupDf setDf at *
  exact find_map_set d h

theorem lookupDf_withLog (c : Cleaner) (m : String) (name : String) :
    lookupDf (withLog c m) name = lookupDf c name := rfl

/-! ### C1: date parsing under `format="mixed"` -/

/-- C1 (code bug): the raw generator writes `01/05/2021` for 1 May 2021 in
the documented `DD/MM/YYYY` format, but `convert_date`
(`pd.to_datetime(format="mixed")`, default `dayfirst=False`) parses it
month-first as 5 January 2021 — a silently wrong date rather than the
correct parse the claim states. -/
theorem convert_date_misparses_day_month :
    convert_date
        ⟨[("transactions", ⟨[("date", DType.obj)], [[Cell.str "01/05/2021"]]⟩)], []⟩
        "transactions" "date"
      = Except.ok
          ⟨[("transactions",
             ⟨[("date", DType.dt)], [[Cell.date ⟨2021, 1, 5, 0, 0, 0⟩]]⟩)],
           [convertDateMsg "date" "transactions"]⟩
    ∧ (⟨2021, 1, 5, 0, 0, 0⟩ : DateTime) ≠ ⟨2021, 5, 1, 0, 0, 0⟩ :=
  ⟨rfl, by decide⟩

/-! ### C4: unknown dataset name -/

/-- C4 (counterexample): invoking validation with a dataset name unknown to
the engine does not raise — the `try/except` in `validate_df` swallows the
lookup failure, appends a failure entry to the log and returns `false`. -/
theorem validate_df_unknown_dataset_counterexample :
    validate_df ⟨[], []⟩ "customers" customers_schema
      = (⟨[], [validationFailMsg "customers"]⟩, false) := by
  decide

/-- C4 (amended): every mutating operation raises a dataset-not-found error
on an unknown dataset name, leaving the state untouched; `validate_df` alone
catches the failure, logs it and returns `false` without mutating the
datasets. -/
theorem unknown_dataset_raises_except_validation
    (c : Cleaner) (name : String) (h : lookupDf c name = Option.none) :
    (∀ subset keep, drop_duplicates c name subset keep
        = Except.error (notFoundMsg name))
    ∧ (∀ column, convert_date c name column = Except.error (notFoundMsg name))
    ∧ (∀ pairs, filter_categorical c name pairs
        = Except.error (notFoundMsg name))
    ∧ (∀ column fill, convert_to_int c name column fill
        = Except.error (notFoundMsg name))
    ∧ (∀ cond condLabel, remove_rows c name cond condLabel
        = Except.error (notFoundMsg name))
    ∧ (∀ excl, remove_negatives c name excl = Except.error (notFoundMsg name))
    ∧ (∀ sch, validate_df c name sch
        = (withLog c (validationFailMsg name), false)) := by
  refine ⟨?_, ?_, ?_, ?_, ?_, ?_, ?_⟩ <;> intros <;>
    simp [drop_duplicates, convert_date, filter_categorical, convert_to_int,
      remove_rows, remove_negatives, validate_df, h]

theorem unknown_dataset_raises_except_validation_witness :
    lookupDf ⟨[], []⟩ "customers" = Option.none
    ∧ drop_duplicates ⟨[], []⟩ "customers" ["customer_id"] Keep.first
        = Except.error (notFoundMsg "customers")
    ∧ validate_df ⟨[], []⟩ "customers" customers_schema
        = (withLog ⟨[], []⟩ (validationFailMsg "customers"), false) :=
  ⟨by decide,
   (unknown_dataset_raises_except_validation ⟨[], []⟩ "customers"
      (by decide)).1 ["customer_id"] Keep.first,
   (unknown_dataset_raises_except_validation ⟨[], []⟩ "customers"
      (by decide)).2.2.2.2.2.2 customers_schema⟩

/-! ### C7: the validator is a pure reporting gate -/

/-- C7: `validate_df` always returns a boolean, never mutates any dataset,
and appends exactly one audit entry — a pass message on success, a failure
diagnostic on failure — so a failed validation is logged and the run
proceeds instead of raising. -/
theorem validate_df_reporting_gate (c : Cleaner) (name : String)
    (sch : Schema) :
    (validate_df c name sch).1.dfs = c.dfs
    ∧ (validate_df c name sch).1.cleaning_log
      = c.cleaning_log
        ++ [if (validate_df c name sch).2 then validationPassMsg name
            else validationFailMsg name] := by
  unfold validate_df
  cases h : lookupDf c name with
  | none => simp [withLog]
  | some df =>
    by_cases hv : schemaValidate sch df = true
    · simp [hv, withLog]
    · simp [Bool.eq_false_iff.mpr hv, withLog]

/-! ### C6: strict schema closure -/

/-- C6: against a strict schema, a dataframe with any undeclared column or
missing any declared column fails validation. -/
theorem schema_strict_closure (sch : Schema) (df : DataFrame)
    (hs : sch.strict = true)
    (h : (∃ p ∈ df.cols, ∀ cs ∈ sch.columns, cs.cname ≠ p.1)
       ∨ (∃ cs ∈ sch.columns, df.colIdx cs.cname = Option.none)) :
    schemaValidate sch df = false := by
  cases hv : schemaValidate sch df with
  | false => rfl
  | true =>
    exfalso
    have ht := hv
    unfold schemaValidate at ht
    rw [Bool.and_eq_true] at ht
    obtain ⟨h1, h2⟩ := ht
    rcases h with ⟨p, hp, hnd⟩ | ⟨cs, hcs, hidx⟩
    · rw [hs] at h1
      simp only [Bool.not_true, Bool.false_or, List.all_eq_true] at h1
      have := h1 p hp
      rw [List.any_eq_true] at this
      obtain ⟨cs, hcs, heq⟩ := this
      exact hnd cs hcs (by simpa using heq)
    · rw [List.all_eq_true] at h2
      have := h2 cs hcs
      rw [hidx] at this
      simp at this

theorem schema_strict_closure_witness :
    customers_schema.strict = true
    ∧ ((∃ p ∈ (⟨[], []⟩ : DataFrame).cols,
          ∀ cs ∈ customers_schema.columns, cs.cname ≠ p.1)
       ∨ (∃ cs ∈ customers_schema.columns,
          (⟨[], []⟩ : DataFrame).colIdx cs.cname = Option.none))
    ∧ schemaValidate customers_schema ⟨[], []⟩ = false :=
  ⟨rfl,
   Or.inr ⟨⟨"customer_id", CType.tStr, false, true, CCheck.noCheck⟩,
     by decide, by decide⟩,
   schema_strict_closure customers_schema ⟨[], []⟩ rfl
     (Or.inr ⟨⟨"customer_id", CType.tStr, false, true, CCheck.noCheck⟩,
       by decide, by decide⟩)⟩

/-! ### C5: idempotence of `drop_duplicates` -/

theorem dedupFirstAux_mem_not_seen {key : List Cell → List Cell} :
    ∀ {l seen : List (List Cell)} {r : List Cell},
    r ∈ dedupFirstAux key seen l → key r ∉ seen := by
  intro l
  induction l with
  | nil => intro seen r h; simp [dedupFirstAux] at h
  | cons a t ih =>
    intro seen r h
    rw [dedupFirstAux] at h
    by_cases ha : key a ∈ seen
    · rw [if_pos ha] at h
      exact ih h
    · rw [if_neg ha] at h
      rcases List.mem_cons.mp h with rfl | hm
      · exact ha
      · intro hc
        exact ih hm (List.mem_cons_of_mem _ hc)

theorem dedupFirstAux_keys_nodup {key : List Cell → List Cell} :
    ∀ (l seen : List (List Cell)),
    ((dedupFirstAux key seen l).map key).Nodup := by
  intro l
  induction l with
  | nil => intro seen; simp [dedupFirstAux]
  | cons a t ih =>
    intro seen
    rw [dedupFirstAux]
    by_cases ha : key a ∈ seen
    · rw [if_pos ha]
      exact ih seen
    · rw [if_neg ha]
      simp only [List.map_cons, List.nodup_cons]
      refine ⟨?_, ih _⟩
      intro hc
      rcases List.mem_map.mp hc with ⟨r, hr, hkr⟩
      exact dedupFirstAux_mem_not_seen hr (by rw [hkr]; exact List.mem_cons_self _ _)

theorem dedupFirstAux_eq_self {key : List Cell → List Cell} :
    ∀ (l : List (List Cell)) (seen : List (List Cell)),
    (l.map key).Nodup → (∀ r ∈ l, key r ∉ seen) →
    dedupFirstAux key seen l = l := by
  intro l
  induction l with
  | nil => intro seen _ _; rfl
  | cons a t ih =>
    intro seen hnd hs
    have hnd' : (∀ x ∈ t, ¬key x = key a) ∧ (t.map key).Nodup := by
      simpa using hnd
    rw [dedupFirstAux, if_neg (hs a (List.mem_cons_self a t))]
    congr 1
    apply ih _ hnd'.2
    intro r hr hc
    rcases List.mem_cons.mp hc with heq | hseen
    · exact hnd'.1 r hr heq
    · exact hs r (List.mem_cons_of_mem _ hr) hseen

/-- One pass of pandas `drop_duplicates` is idempotent, for each of the
three keep policies. -/
theorem dedupRows_idem (key : List Cell → List Cell) (keep : Keep)
    (rows : List (List Cell)) :
    dedupRows key keep (dedupRows key keep rows) = dedupRows key keep rows := by
  cases keep with
  | first =>
    exact dedupFirstAux_eq_self _ _ (dedupFirstAux_keys_nodup _ _)
      (by intro r _; simp)
  | last =>
    simp only [dedupRows]
    rw [List.reverse_reverse]
    rw [dedupFirstAux_eq_self _ _ (dedupFirstAux_keys_nodup _ _)
      (by intro r _; simp)]
  | no =>
    apply List.filter_eq_self.mpr
    intro r hr
    have hrl := List.mem_filter.mp hr
    have h1 : rows.countP (fun r2 => decide (key r2 = key r)) = 1 := by
      simpa using hrl.2
    have hsub : List.Sublist (rows.filter
        (fun r0 => rows.countP (fun r2 => decide (key r2 = key r0)) == 1)) rows :=
      List.filter_sublist rows
    have hle := hsub.countP_le (fun r2 => decide (key r2 = key r))
    have hge : 0 < (rows.filter
        (fun r0 => rows.countP (fun r2 => decide (key r2 = key r0)) == 1)).countP
        (fun r2 => decide (key r2 = key r)) := by
      rw [List.countP_pos_iff]
      exact ⟨r, hr, by simp⟩
    have : (rows.filter
        (fun r0 => rows.countP (fun r2 => decide (key r2 = key r0)) == 1)).countP
        (fun r2 => decide (key r2 = key r)) = 1 :=
      Nat.le_antisymm (h1 ▸ hle) hge
    simpa using this

theorem setDf_setDf_dfs (c : Cleaner) (n : String) (d d' : DataFrame) :
    (setDf (setDf c n d) n d').dfs = (setDf c n d').dfs := by
  simp only [setDf, List.map_map]
  apply List.map_congr_left
  intro p _
  by_cases hp : (p.1 == n) = true <;> simp [Function.comp, hp]

/-- What one successful `drop_duplicates` call does. -/
theorem drop_duplicates_eq (c : Cleaner) (name : String) (subset : List String)
    (keep : Keep) (df : DataFrame) (idxs : List Nat)
    (h : lookupDf c name = Option.some df)
    (hs : subsetIdxs df subset = Option.some idxs) :
    drop_duplicates c name subset keep
      = Except.ok (withLog
          (setDf c name ⟨df.cols, dedupRows (projRow idxs) keep df.rows⟩)
          (dropDupMsg (df.rows.length
            - (dedupRows (projRow idxs) keep df.rows).length) name)) := by
  simp [drop_duplicates, h, hs]

/-- C5: running `drop_duplicates` twice with the same dataset, key columns
and keep policy leaves the dataset collection exactly as after the first
run; the second run removes zero rows and logs it. -/
theorem drop_duplicates_idempotent (c : Cleaner) (name : String)
    (subset : List String) (keep : Keep) (df : DataFrame) (idxs : List Nat)
    (h : lookupDf c name = Option.some df)
    (hs : subsetIdxs df subset = Option.some idxs) :
    ∃ c₁, drop_duplicates c name subset keep = Except.ok c₁
      ∧ ∃ c₂, drop_duplicates c₁ name subset keep = Except.ok c₂
        ∧ c₂.dfs = c₁.dfs
        ∧ c₂.cleaning_log = c₁.cleaning_log ++ [dropDupMsg 0 name] := by
  have hidem := dedupRows_idem (projRow idxs) keep df.rows
  have e1 := drop_duplicates_eq c name subset keep df idxs h hs
  have hl1 : lookupDf (withLog
      (setDf c name ⟨df.cols, dedupRows (projRow idxs) keep df.rows⟩)
      (dropDupMsg (df.rows.length
        - (dedupRows (projRow idxs) keep df.rows).length) name)) name
      = Option.some ⟨df.cols, dedupRows (projRow idxs) keep df.rows⟩ := by
    rw [lookupDf_withLog]
    exact lookupDf_setDf h
  have hs1 : subsetIdxs (⟨df.cols, dedupRows (projRow idxs) keep df.rows⟩ : DataFrame)
      subset = Option.some idxs := hs
  have e2 := drop_duplicates_eq _ name subset keep _ idxs hl1 hs1
  dsimp only at e2
  rw [hidem, Nat.sub_self] at e2
  refine ⟨_, e1, _, e2, ?_, rfl⟩
  exact setDf_setDf_dfs c name _ _

theorem drop_duplicates_idempotent_witness :
    lookupDf ⟨[("customers",
        ⟨[("customer_id", DType.obj)], [[Cell.str "C1"], [Cell.str "C1"]]⟩)], []⟩
        "customers"
      = Option.some ⟨[("customer_id", DType.obj)], [[Cell.str "C1"], [Cell.str "C1"]]⟩
    ∧ subsetIdxs ⟨[("customer_id", DType.obj)], [[Cell.str "C1"], [Cell.str "C1"]]⟩
        ["customer_id"] = Option.some [0]
    ∧ ∃ c₁, drop_duplicates ⟨[("customers",
          ⟨[("customer_id", DType.obj)], [[Cell.str "C1"], [Cell.str "C1"]]⟩)], []⟩
          "customers" ["customer_id"] Keep.first = Except.ok c₁
        ∧ ∃ c₂, drop_duplicates c₁ "customers" ["customer_id"] Keep.first
            = Except.ok c₂
          ∧ c₂.dfs = c₁.dfs
          ∧ c₂.cleaning_log = c₁.cleaning_log ++ [dropDupMsg 0 "customers"] :=
  ⟨by decide, by decide,
   drop_duplicates_idempotent
     ⟨[("customers",
        ⟨[("customer_id", DType.obj)], [[Cell.str "C1"], [Cell.str "C1"]]⟩)], []⟩
     "customers" ["customer_id"] Keep.first
     ⟨[("customer_id", DType.obj)], [[Cell.str "C1"], [Cell.str "C1"]]⟩ [0]
     (by decide) (by decide)⟩

/-! ### C3 and C10: `remove_negatives` -/

theorem foldFilter_mem : ∀ (idxs : List Nat) (rs : List (List Cell))
    (r : List Cell),
    r ∈ idxs.foldl (fun rs i => rs.filter (keepNonneg i)) rs → r ∈ rs := by
  intro idxs
  induction idxs with
  | nil => intro rs r h; simpa using h
  | cons j js ih =>
    intro rs r h
    have := ih _ r h
    exact (List.mem_filter.mp this).1

theorem foldFilter_keeps : ∀ (idxs : List Nat) (rs : List (List Cell))
    (r : List Cell),
    r ∈ idxs.foldl (fun rs i => rs.filter (keepNonneg i)) rs →
    ∀ i ∈ idxs, keepNonneg i r = true := by
  intro idxs
  induction idxs with
  | nil => intro rs r _ i hi; simp at hi
  | cons j js ih =>
    intro rs r h i hi
    rcases List.mem_cons.mp hi with rfl | hm
    · have hr := foldFilter_mem js _ r h
      exact (List.mem_filter.mp hr).2
    · exact ih _ r h i hm

/-- What one successful `remove_negatives` call does. -/
theorem remove_negatives_eq (c : Cleaner) (name : String) (excl : List String)
    (df : DataFrame) (h : lookupDf c name = Option.some df) :
    remove_negatives c name excl
      = Except.ok (withLog (setDf c name
          ⟨df.cols, (numericIdxs df excl).foldl
            (fun rs i => rs.filter (keepNonneg i)) df.rows⟩)
          (removeNegMsg (df.rows.length
            - ((numericIdxs df excl).foldl
                (fun rs i => rs.filter (keepNonneg i)) df.rows).length) name)) := by
  simp [remove_negatives, h]

/-- C3: after `remove_negatives`, every surviving value of a non-excluded
numeric column is non-negative, and the count in the audit entry is the row
difference between before and after all per-column passes — so a row with
negatives in several columns is counted once. -/
theorem remove_negatives_purge_and_count (c : Cleaner) (name : String)
    (excl : List String) (df : DataFrame)
    (h : lookupDf c name = Option.some df) :
    ∃ df', remove_negatives c name excl
        = Except.ok (withLog (setDf c name df')
            (removeNegMsg (df.rows.length - df'.rows.length) name))
      ∧ df'.cols = df.cols
      ∧ ∀ r ∈ df'.rows, ∀ i ∈ numericIdxs df excl, ∀ q : Rat,
          r.getD i Cell.na = Cell.num q → 0 ≤ q := by
  refine ⟨⟨df.cols, (numericIdxs df excl).foldl
      (fun rs i => rs.filter (keepNonneg i)) df.rows⟩,
    remove_negatives_eq c name excl df h, rfl, ?_⟩
  intro r hr i hi q hq
  have hk := foldFilter_keeps _ _ _ hr i hi
  unfold keepNonneg at hk
  rw [hq] at hk
  exact of_decide_eq_true hk

theorem remove_negatives_purge_and_count_witness :
    lookupDf ⟨[("transactions",
        ⟨[("customer_id", DType.obj), ("call_minutes", DType.numF)],
         [[Cell.str "A", Cell.num (-3)], [Cell.str "B", Cell.num 2]]⟩)], []⟩
        "transactions"
      = Option.some ⟨[("customer_id", DType.obj), ("call_minutes", DType.numF)],
         [[Cell.str "A", Cell.num (-3)], [Cell.str "B", Cell.num 2]]⟩
    ∧ ∃ df', remove_negatives ⟨[("transactions",
          ⟨[("customer_id", DType.obj), ("call_minutes", DType.numF)],
           [[Cell.str "A", Cell.num (-3)], [Cell.str "B", Cell.num 2]]⟩)], []⟩
          "transactions" []
        = Except.ok (withLog (setDf ⟨[("transactions",
            ⟨[("customer_id", DType.obj), ("call_minutes", DType.numF)],
             [[Cell.str "A", Cell.num (-3)], [Cell.str "B", Cell.num 2]]⟩)], []⟩
            "transactions" df')
            (removeNegMsg (2 - df'.rows.length) "transactions"))
      ∧ df'.cols = [("customer_id", DType.obj), ("call_minutes", DType.numF)]
      ∧ ∀ r ∈ df'.rows, ∀ i ∈ numericIdxs
          ⟨[("customer_id", DType.obj), ("call_minutes", DType.numF)],
           [[Cell.str "A", Cell.num (-3)], [Cell.str "B", Cell.num 2]]⟩ [],
          ∀ q : Rat, r.getD i Cell.na = Cell.num q → 0 ≤ q :=
  ⟨by decide,
   remove_negatives_purge_and_count
     ⟨[("transactions",
        ⟨[("customer_id", DType.obj), ("call_minutes", DType.numF)],
         [[Cell.str "A", Cell.num (-3)], [Cell.str "B", Cell.num 2]]⟩)], []⟩
     "transactions" []
     ⟨[("customer_id", DType.obj), ("call_minutes", DType.numF)],
      [[Cell.str "A", Cell.num (-3)], [Cell.str "B", Cell.num 2]]⟩
     (by decide)⟩

/-- C10: `remove_negatives` also removes every row holding a missing value
in a non-excluded numeric column — the keep test is a strict `value >= 0`
comparison that a missing value fails — so no surviving row has a missing
entry there. -/
theorem remove_negatives_drops_missing (c : Cleaner) (name : String)
    (excl : List String) (df : DataFrame)
    (h : lookupDf c name = Option.some df) :
    ∃ df', remove_negatives c name excl
        = Except.ok (withLog (setDf c name df')
            (removeNegMsg (df.rows.length - df'.rows.length) name))
      ∧ ∀ r ∈ df'.rows, ∀ i ∈ numericIdxs df excl,
          r.getD i Cell.na ≠ Cell.na := by
  refine ⟨⟨df.cols, (numericIdxs df excl).foldl
      (fun rs i => rs.filter (keepNonneg i)) df.rows⟩,
    remove_negatives_eq c name excl df h, ?_⟩
  intro r hr i hi hna
  have hk := foldFilter_keeps _ _ _ hr i hi
  unfold keepNonneg at hk
  rw [hna] at hk
  simp at hk

theorem remove_negatives_drops_missing_witness :
    lookupDf ⟨[("support_interactions",
        ⟨[("resolution_time_min", DType.numF)], [[Cell.na], [Cell.num 5]]⟩)], []⟩
        "support_interactions"
      = Option.some ⟨[("resolution_time_min", DType.numF)],
          [[Cell.na], [Cell.num 5]]⟩
    ∧ ∃ df', remove_negatives ⟨[("support_interactions",
          ⟨[("resolution_time_min", DType.numF)], [[Cell.na], [Cell.num 5]]⟩)], []⟩
          "support_interactions" []
        = Except.ok (withLog (setDf ⟨[("support_interactions",
            ⟨[("resolution_time_min", DType.numF)], [[Cell.na], [Cell.num 5]]⟩)], []⟩
            "support_interactions" df')
            (removeNegMsg (2 - df'.rows.length) "support_interactions"))
      ∧ ∀ r ∈ df'.rows, ∀ i ∈ numericIdxs
          ⟨[("resolution_time_min", DType.numF)], [[Cell.na], [Cell.num 5]]⟩ [],
          r.getD i Cell.na ≠ Cell.na :=
  ⟨by decide,
   remove_negatives_drops_missing
     ⟨[("support_interactions",
        ⟨[("resolution_time_min", DType.numF)], [[Cell.na], [Cell.num 5]]⟩)], []⟩
     "support_interactions" []
     ⟨[("resolution_time_min", DType.numF)], [[Cell.na], [Cell.num 5]]⟩
     (by decide)⟩

/-! ### C2 and C8: `filter_categorical` -/

theorem filterCatStep_cols (n : String) (acc : DataFrame × List String)
    (p : String × List String) :
    (filterCatStep n acc p).1.cols = acc.1.cols := by
  unfold filterCatStep
  cases acc.1.colIdx p.1 with
  | none => rfl
  | some i => rfl

theorem filterCatStep_rowslen (n : String) (acc : DataFrame × List String)
    (p : String × List String) :
    (filterCatStep n acc p).1.rows.length = acc.1.rows.length := by
  unfold filterCatStep
  cases acc.1.colIdx p.1 with
  | none => rfl
  | some i => simp [filterCatCol]

theorem filterCatStep_other_col (n : String) (acc : DataFrame × List String)
    (p : String × List String) (j : Nat)
    (hname : (acc.1.cols.getD j ("", DType.obj)).1 ≠ p.1) :
    (filterCatStep n acc p).1.colCells j = acc.1.colCells j := by
  unfold filterCatStep
  cases h : acc.1.colIdx p.1 with
  | none => rfl
  | some i =>
    have hi := @colIdxAux_some p.1 acc.1.cols i h
    have hij : i ≠ j := fun he => hname (he ▸ hi.2)
    show (filterCatCol acc.1 i p.2).1.colCells j = acc.1.colCells j
    unfold DataFrame.colCells filterCatCol
    simp only [List.map_map]
    apply List.map_congr_left
    intro r _
    show (if isinCell (r.getD i Cell.na) p.2 = true then r
        else r.set i Cell.na).getD j Cell.na = r.getD j Cell.na
    by_cases hin : isinCell (r.getD i Cell.na) p.2 = true
    · rw [if_pos hin]
    · rw [if_neg hin]
      exact getD_set_ne r Cell.na hij

theorem filterCatFold_cols (n : String) :
    ∀ (ps : List (String × List String)) (acc : DataFrame × List String),
    ((ps.foldl (filterCatStep n) acc).1).cols = acc.1.cols := by
  intro ps
  induction ps with
  | nil => intro acc; rfl
  | cons p pt ih =>
    intro acc
    rw [List.foldl_cons, ih, filterCatStep_cols]

theorem filterCatFold_rowslen (n : String) :
    ∀ (ps : List (String × List String)) (acc : DataFrame × List String),
    ((ps.foldl (filterCatStep n) acc).1).rows.length = acc.1.rows.length := by
  intro ps
  induction ps with
  | nil => intro acc; rfl
  | cons p pt ih =>
    intro acc
    rw [List.foldl_cons, ih, filterCatStep_rowslen]

theorem filterCatFold_other_col (n : String) :
    ∀ (ps : List (String × List String)) (acc : DataFrame × List String)
      (j : Nat),
    (∀ p ∈ ps, (acc.1.cols.getD j ("", DType.obj)).1 ≠ p.1) →
    ((ps.foldl (filterCatStep n) acc).1).colCells j = acc.1.colCells j := by
  intro ps
  induction ps with
  | nil => intro acc j _; rfl
  | cons p pt ih =>
    intro acc j hns
    rw [List.foldl_cons]
    rw [ih _ j ?_, filterCatStep_other_col n acc p j
      (hns p (List.mem_cons_self p pt))]
    intro p' hp'
    rw [filterCatStep_cols]
    exact hns p' (List.mem_cons_of_mem _ hp')

theorem filterCatFold_log_append (n : String) :
    ∀ (ps : List (String × List String)) (acc : DataFrame × List String),
    ∃ t, (ps.foldl (filterCatStep n) acc).2 = acc.2 ++ t := by
  intro ps
  induction ps with
  | nil => intro acc; exact ⟨[], (List.append_nil _).symm⟩
  | cons p pt ih =>
    intro acc
    rw [List.foldl_cons]
    obtain ⟨t, ht⟩ := ih (filterCatStep n acc p)
    have hstep : ∃ s, (filterCatStep n acc p).2 = acc.2 ++ s := by
      unfold filterCatStep
      cases acc.1.colIdx p.1 with
      | none => exact ⟨[], by simp⟩
      | some i => exact ⟨[filterMsg (filterCatCol acc.1 i p.2).2 p.1 n], rfl⟩
    obtain ⟨s, hs⟩ := hstep
    exact ⟨s ++ t, by rw [ht, hs, List.append_assoc]⟩

theorem filterCatCol_closure (df : DataFrame) (i : Nat) (allowed : List String) :
    ∀ cell ∈ ((filterCatCol df i allowed).1).colCells i,
      cell = Cell.na ∨ isinCell cell allowed = true := by
  intro cell hc
  unfold DataFrame.colCells filterCatCol at hc
  simp only [List.map_map] at hc
  rcases List.mem_map.mp hc with ⟨r, _, hcell⟩
  by_cases hin : isinCell (r.getD i Cell.na) allowed = true
  · right
    rw [← hcell]
    show isinCell ((if isinCell (r.getD i Cell.na) allowed = true then r
        else r.set i Cell.na).getD i Cell.na) allowed = true
    rw [if_pos hin]
    exact hin
  · left
    rw [← hcell]
    show (if isinCell (r.getD i Cell.na) allowed = true then r
        else r.set i Cell.na).getD i Cell.na = Cell.na
    rw [if_neg hin]
    exact getD_set_self_na r i

theorem filterCatCol_count (df : DataFrame) (i : Nat) (allowed : List String) :
    (filterCatCol df i allowed).2
      = (df.colCells i).countP (fun cell => !(isinCell cell allowed)) := by
  unfold filterCatCol DataFrame.colCells
  rw [List.countP_map]
  rfl

theorem filterCatFold_targeted (n : String) :
    ∀ (ps : List (String × List String)) (df : DataFrame) (logs : List String)
      (col : String) (allowed : List String) (i : Nat),
    (col, allowed) ∈ ps →
    (ps.map Prod.fst).Nodup →
    df.colIdx col = Option.some i →
    (filterMsg ((df.colCells i).countP (fun cell => !(isinCell cell allowed)))
        col n ∈ (ps.foldl (filterCatStep n) (df, logs)).2)
    ∧ ∀ cell ∈ ((ps.foldl (filterCatStep n) (df, logs)).1).colCells i,
        cell = Cell.na ∨ isinCell cell allowed = true := by
  intro ps
  induction ps with
  | nil => intro df logs col allowed i hmem _ _; simp at hmem
  | cons p pt ih =>
    intro df logs col allowed i hmem hnd hi
    rw [List.foldl_cons]
    rcases List.mem_cons.mp hmem with heq | hmem'
    · have hstep1 : (filterCatStep n (df, logs) p).1 = (filterCatCol df i allowed).1 := by
        unfold filterCatStep
        rw [← heq]
        show (match DataFrame.colIdx df col with
          | Option.none => (df, logs)
          | Option.some i => ((filterCatCol df i allowed).1,
              logs ++ [filterMsg (filterCatCol df i allowed).2 col n])).1 = _
        rw [hi]
      have hstep2 : (filterCatStep n (df, logs) p).2
          = logs ++ [filterMsg ((df.colCells i).countP
              (fun cell => !(isinCell cell allowed))) col n] := by
        unfold filterCatStep
        rw [← heq]
        show (match DataFrame.colIdx df col with
          | Option.none => (df, logs)
          | Option.some i => ((filterCatCol df i allowed).1,
              logs ++ [filterMsg (filterCatCol df i allowed).2 col n])).2 = _
        rw [hi]
        show logs ++ [filterMsg (filterCatCol df i allowed).2 col n] = _
        rw [filterCatCol_count]
      constructor
      · obtain ⟨t, ht⟩ := filterCatFold_log_append n pt (filterCatStep n (df, logs) p)
        rw [ht, hstep2]
        exact List.mem_append_left _ (List.mem_append_right _ (List.mem_singleton.mpr rfl))
      · have hnames : ∀ p' ∈ pt,
            (((filterCatStep n (df, logs) p).1).cols.getD i ("", DType.obj)).1 ≠ p'.1 := by
          intro p' hp'
          rw [filterCatStep_cols]
          show (df.cols.getD i ("", DType.obj)).1 ≠ p'.1
          rw [(colIdxAux_some hi).2]
          have hno : col ∉ pt.map Prod.fst := by
            have h2 : (p.1 :: pt.map Prod.fst).Nodup := by
              simpa only [List.map_cons] using hnd
            rw [← heq] at h2
            exact (List.nodup_cons.mp h2).1
          exact fun he => hno (he ▸ List.mem_map_of_mem Prod.fst hp')
        rw [filterCatFold_other_col n pt _ i hnames, hstep1]
        exact filterCatCol_closure df i allowed
    · have hp1 : p.1 ≠ col := by
        have hin : col ∈ pt.map Prod.fst := by
          have := List.mem_map_of_mem Prod.fst hmem'
          simpa using this
        have hno : p.1 ∉ pt.map Prod.fst :=
          (List.nodup_cons.mp (by simpa only [List.map_cons] using hnd)).1
        exact fun he => hno (he ▸ hin)
      have hcols : (filterCatStep n (df, logs) p).1.cols = df.cols :=
        filterCatStep_cols n (df, logs) p
      have hi2 : (filterCatStep n (df, logs) p).1.colIdx col = Option.some i := by
        rw [DataFrame.colIdx, hcols]
        exact hi
      have hcells : (filterCatStep n (df, logs) p).1.colCells i = df.colCells i := by
        apply filterCatStep_other_col
        show (df.cols.getD i ("", DType.obj)).1 ≠ p.1
        rw [(colIdxAux_some hi).2]
        exact fun he => hp1 he.symm
      have htail : (pt.map Prod.fst).Nodup :=
        (List.nodup_cons.mp (by simpa only [List.map_cons] using hnd)).2
      have := ih (filterCatStep n (df, logs) p).1
        (filterCatStep n (df, logs) p).2 col allowed i hmem' htail hi2
      rw [hcells] at this
      exact this

/-- C2 (counterexample): on a column holding one missing value, one
whitelisted value and one out-of-whitelist value, the audit entry records 2
nulled values — the pre-existing missing value fails `isin` and is counted —
while only 1 raw value is outside the allowed set. -/
theorem filter_categorical_count_counterexample :
    filter_categorical
        ⟨[("support_interactions",
           ⟨[("channel", DType.obj)],
            [[Cell.na], [Cell.str "email"], [Cell.str "zzz"]]⟩)], []⟩
        "support_interactions" [("channel", ALLOWED_CHANNELS)]
      = Except.ok
          ⟨[("support_interactions",
             ⟨[("channel", DType.obj)],
              [[Cell.na], [Cell.str "email"], [Cell.na]]⟩)],
           [filterMsg 2 "channel" "support_interactions"]⟩
    ∧ ([Cell.na, Cell.str "email", Cell.str "zzz"].countP
        (fun cell => !(cell == Cell.na) && !(isinCell cell ALLOWED_CHANNELS))) = 1 :=
  ⟨rfl, by decide⟩

/-- C2 (amended): after `filter_categorical`, every non-missing value of a
targeted present column is in its allowed set, and the count in that
column's audit entry equals the number of raw entries that are missing or
outside the allowed set (a pre-existing missing entry is counted although it
is not nulled by the operation). -/
theorem filter_categorical_closure_and_count (c : Cleaner)
    (name col : String) (pairs : List (String × List String))
    (allowed : List String) (df : DataFrame) (i : Nat)
    (h : lookupDf c name = Option.some df)
    (hmem : (col, allowed) ∈ pairs)
    (hnd : (pairs.map Prod.fst).Nodup)
    (hi : df.colIdx col = Option.some i) :
    ∃ c', filter_categorical c name pairs = Except.ok c'
      ∧ ∃ df', lookupDf c' name = Option.some df'
        ∧ (∀ cell ∈ df'.colCells i, cell = Cell.na ∨ isinCell cell allowed = true)
        ∧ filterMsg ((df.colCells i).countP
            (fun cell => cell == Cell.na || !(isinCell cell allowed))) col name
            ∈ c'.cleaning_log := by
  have hcount : (df.colCells i).countP (fun cell => !(isinCell cell allowed))
      = (df.colCells i).countP
          (fun cell => cell == Cell.na || !(isinCell cell allowed)) := by
    apply List.countP_congr
    intro cell _
    cases cell <;> simp [isinCell]
  have htgt := filterCatFold_targeted name pairs df [] col allowed i hmem hnd hi
  refine ⟨{ c with
      dfs := (setDf c name (pairs.foldl (filterCatStep name) (df, [])).1).dfs,
      cleaning_log := c.cleaning_log
        ++ (pairs.foldl (filterCatStep name) (df, [])).2 },
    by simp [filter_categorical, h], ?_⟩
  refine ⟨(pairs.foldl (filterCatStep name) (df, [])).1, ?_, htgt.2, ?_⟩
  · exact lookupDf_setDf h
  · show _ ∈ c.cleaning_log ++ (pairs.foldl (filterCatStep name) (df, [])).2
    rw [← hcount]
    exact List.mem_append_right _ htgt.1

theorem filter_categorical_closure_and_count_witness :
    lookupDf ⟨[("support_interactions",
        ⟨[("channel", DType.obj)], [[Cell.str "carrier pigeon"], [Cell.str "chat"]]⟩)], []⟩
        "support_interactions"
      = Option.some ⟨[("channel", DType.obj)],
          [[Cell.str "carrier pigeon"], [Cell.str "chat"]]⟩
    ∧ ("channel", ALLOWED_CHANNELS) ∈ [("channel", ALLOWED_CHANNELS)]
    ∧ ([("channel", ALLOWED_CHANNELS)].map Prod.fst).Nodup
    ∧ DataFrame.colIdx ⟨[("channel", DType.obj)],
        [[Cell.str "carrier pigeon"], [Cell.str "chat"]]⟩ "channel"
        = Option.some 0
    ∧ ∃ c', filter_categorical ⟨[("support_interactions",
          ⟨[("channel", DType.obj)], [[Cell.str "carrier pigeon"], [Cell.str "chat"]]⟩)], []⟩
          "support_interactions" [("channel", ALLOWED_CHANNELS)] = Except.ok c'
      ∧ ∃ df', lookupDf c' "support_interactions" = Option.some df'
        ∧ (∀ cell ∈ df'.colCells 0,
            cell = Cell.na ∨ isinCell cell ALLOWED_CHANNELS = true)
        ∧ filterMsg (([Cell.str "carrier pigeon", Cell.str "chat"] :
              List Cell).countP
            (fun cell => cell == Cell.na || !(isinCell cell ALLOWED_CHANNELS)))
            "channel" "support_interactions" ∈ c'.cleaning_log :=
  ⟨by decide, by decide, by decide, by decide,
   filter_categorical_closure_and_count
     ⟨[("support_interactions",
        ⟨[("channel", DType.obj)], [[Cell.str "carrier pigeon"], [Cell.str "chat"]]⟩)], []⟩
     "support_interactions" "channel" [("channel", ALLOWED_CHANNELS)]
     ALLOWED_CHANNELS
     ⟨[("channel", DType.obj)], [[Cell.str "carrier pigeon"], [Cell.str "chat"]]⟩
     0 (by decide) (by decide) (by decide) (by decide)⟩

/-- C8: `filter_categorical` nulls in place and never removes rows — the
row count and the column list are unchanged, and the cells of every column
not named in the call are untouched; a call is always accepted (never an
error) when the dataset exists, even when it names columns the dataset does
not have, which are simply skipped. -/
theorem filter_categorical_frame_effect (c : Cleaner) (name : String)
    (pairs : List (String × List String)) (df : DataFrame)
    (h : lookupDf c name = Option.some df) :
    ∃ c', filter_categorical c name pairs = Except.ok c'
      ∧ ∃ df', lookupDf c' name = Option.some df'
        ∧ df'.cols = df.cols
        ∧ df'.rows.length = df.rows.length
        ∧ ∀ j, (∀ p ∈ pairs, (df.cols.getD j ("", DType.obj)).1 ≠ p.1) →
            df'.colCells j = df.colCells j := by
  refine ⟨{ c with
      dfs := (setDf c name (pairs.foldl (filterCatStep name) (df, [])).1).dfs,
      cleaning_log := c.cleaning_log
        ++ (pairs.foldl (filterCatStep name) (df, [])).2 },
    by simp [filter_categorical, h], ?_⟩
  refine ⟨(pairs.foldl (filterCatStep name) (df, [])).1, ?_, ?_, ?_, ?_⟩
  · exact lookupDf_setDf h
  · exact filterCatFold_cols name pairs (df, [])
  · exact filterCatFold_rowslen name pairs (df, [])
  · intro j hj
    exact filterCatFold_other_col name pairs (df, []) j hj

theorem filter_categorical_frame_effect_witness :
    lookupDf ⟨[("support_interactions",
        ⟨[("channel", DType.obj), ("issue_type", DType.obj)],
         [[Cell.str "carrier pigeon", Cell.str "billing"]]⟩)], []⟩
        "support_interactions"
      = Option.some ⟨[("channel", DType.obj), ("issue_type", DType.obj)],
          [[Cell.str "carrier pigeon", Cell.str "billing"]]⟩
    ∧ ∃ c', filter_categorical ⟨[("support_interactions",
          ⟨[("channel", DType.obj), ("issue_type", DType.obj)],
           [[Cell.str "carrier pigeon", Cell.str "billing"]]⟩)], []⟩
          "support_interactions"
          [("channel", ALLOWED_CHANNELS), ("missing_column", ALLOWED_PLANS)]
          = Except.ok c'
      ∧ ∃ df', lookupDf c' "support_interactions" = Option.some df'
        ∧ df'.cols = [("channel", DType.obj), ("issue_type", DType.obj)]
        ∧ df'.rows.length = 1
        ∧ ∀ j, (∀ p ∈ [("channel", ALLOWED_CHANNELS), ("missing_column", ALLOWED_PLANS)],
              (([("channel", DType.obj), ("issue_type", DType.obj)].getD j
                ("", DType.obj)).1 ≠ p.1)) →
            df'.colCells j
              = DataFrame.colCells ⟨[("channel", DType.obj), ("issue_type", DType.obj)],
                  [[Cell.str "carrier pigeon", Cell.str "billing"]]⟩ j :=
  ⟨by decide,
   filter_categorical_frame_effect
     ⟨[("support_interactions",
        ⟨[("channel", DType.obj), ("issue_type", DType.obj)],
         [[Cell.str "carrier pigeon", Cell.str "billing"]]⟩)], []⟩
     "support_interactions"
     [("channel", ALLOWED_CHANNELS), ("missing_column", ALLOWED_PLANS)]
     ⟨[("channel", DType.obj), ("issue_type", DType.obj)],
      [[Cell.str "carrier pigeon", Cell.str "billing"]]⟩
     (by decide)⟩

/-! ### C9: `convert_to_int` -/

/-- C9 (counterexample): on a column holding the non-integral number 2.5,
`convert_to_int` without a fill value leaves the value as a non-integral
float — `convert_dtypes` only moves to a nullable integer representation
when every value can be cast faithfully — so not every previously present
value is represented as an integer. -/
theorem convert_to_int_counterexample :
    convert_to_int
        ⟨[("age", ⟨[("age", DType.numF)], [[Cell.num (mkRat 5 2)]]⟩)], []⟩
        "age" "age" Option.none
      = Except.ok
          ⟨[("age", ⟨[("age", DType.numF)], [[Cell.num (mkRat 5 2)]]⟩)],
           [convertIntMsg "age" "age"]⟩
    ∧ (mkRat 5 2).den ≠ 1 :=
  ⟨rfl, by decide⟩

/-- C9 (amended): with a fill value, `convert_to_int` first replaces every
missing cell by the fill value and then applies the coercion; without one,
the column cells are unchanged — in particular every missing value stays
missing and is never coerced to 0 — and the column moves to the nullable
integer dtype exactly when all (post-fill) values are missing or integral
numbers, keeping its previous dtype otherwise. -/
theorem convert_to_int_amended (c : Cleaner) (name col : String)
    (fill : Option Int) (df : DataFrame) (i : Nat)
    (h : lookupDf c name = Option.some df)
    (hi : df.colIdx col = Option.some i)
    (hwf : ∀ r ∈ df.rows, df.cols.length ≤ r.length) :
    ∃ c', convert_to_int c name col fill = Except.ok c'
      ∧ ∃ df', lookupDf c' name = Option.some df'
        ∧ df'.colCells i = (df.colCells i).map (fillnaCell fill)
        ∧ (fill = Option.none → df'.colCells i = df.colCells i)
        ∧ df'.cols = df.cols.set i (col,
            if intLikeCells ((df.colCells i).map (fillnaCell fill))
            then DType.numI
            else (df.cols.getD i ("", DType.obj)).2) := by
  have hlen := (colIdxAux_some hi).1
  have hcc : (DataFrame.mk
      (df.cols.set i (col,
        if intLikeCells ((df.colCells i).map (fillnaCell fill))
        then DType.numI
        else (df.cols.getD i ("", DType.obj)).2))
      (df.rows.map (fun r =>
        r.set i (fillnaCell fill (r.getD i Cell.na))))).colCells i
      = (df.colCells i).map (fillnaCell fill) := by
    unfold DataFrame.colCells
    simp only [List.map_map]
    apply List.map_congr_left
    intro r hr
    show (r.set i (fillnaCell fill (r.getD i Cell.na))).getD i Cell.na
        = fillnaCell fill (r.getD i Cell.na)
    exact getD_set_self (Nat.lt_of_lt_of_le hlen (hwf r hr))
  refine ⟨withLog (setDf c name (DataFrame.mk
      (df.cols.set i (col,
        if intLikeCells ((df.colCells i).map (fillnaCell fill))
        then DType.numI
        else (df.cols.getD i ("", DType.obj)).2))
      (df.rows.map (fun r =>
        r.set i (fillnaCell fill (r.getD i Cell.na))))))
      (convertIntMsg col name),
    by simp [convert_to_int, h, hi], ?_⟩
  refine ⟨_, ?_, hcc, ?_, rfl⟩
  · rw [lookupDf_withLog]
    exact lookupDf_setDf h
  · intro hfn
    subst hfn
    have hid : ∀ cell : Cell, fillnaCell Option.none cell = cell := by
      intro cell
      cases cell <;> rfl
    rw [hcc, List.map_congr_left (fun a _ => hid a)]
    exact List.map_id _

theorem convert_to_int_amended_witness :
    lookupDf ⟨[("customers",
        ⟨[("age", DType.numF)], [[Cell.na], [Cell.num 30]]⟩)], []⟩ "customers"
      = Option.some ⟨[("age", DType.numF)], [[Cell.na], [Cell.num 30]]⟩
    ∧ DataFrame.colIdx ⟨[("age", DType.numF)], [[Cell.na], [Cell.num 30]]⟩ "age"
      = Option.some 0
    ∧ (∀ r ∈ [[Cell.na], [Cell.num 30]],
        ([("age", DType.numF)] : List (String × DType)).length ≤ r.length)
    ∧ ∃ c', convert_to_int ⟨[("customers",
          ⟨[("age", DType.numF)], [[Cell.na], [Cell.num 30]]⟩)], []⟩
          "customers" "age" Option.none = Except.ok c'
      ∧ ∃ df', lookupDf c' "customers" = Option.some df'
        ∧ df'.colCells 0
          = (DataFrame.colCells ⟨[("age", DType.numF)],
              [[Cell.na], [Cell.num 30]]⟩ 0).map (fillnaCell Option.none)
        ∧ (Option.none = (Option.none : Option Int) →
            df'.colCells 0 = DataFrame.colCells
              ⟨[("age", DType.numF)], [[Cell.na], [Cell.num 30]]⟩ 0)
        ∧ df'.cols = ([("age", DType.numF)] : List (String × DType)).set 0
            ("age",
              if intLikeCells ((DataFrame.colCells ⟨[("age", DType.numF)],
                  [[Cell.na], [Cell.num 30]]⟩ 0).map (fillnaCell Option.none))
              then DType.numI
              else (([("age", DType.numF)] : List (String × DType)).getD 0
                ("", DType.obj)).2) :=
  ⟨by decide, by decide, by decide,
   convert_to_int_amended
     ⟨[("customers", ⟨[("age", DType.numF)], [[Cell.na], [Cell.num 30]]⟩)], []⟩
     "customers" "age" Option.none
     ⟨[("age", DType.numF)], [[Cell.na], [Cell.num 30]]⟩ 0
     (by decide) (by decide) (by decide)⟩

end Churn
